import Mathlib

/-
Verification of `src/generative_ai/imagen/edit_image_mask_free.py`.

The script is a linear sequence of calls into an external SDK:
initialize the client, look up a fixed model, load the input image,
issue one remote edit request, save the first returned image, print a
byte count, and return the response collection.  We embed it as a
function from an environment `Env` (recording whether each external
step succeeds, and what the remote service returns) to a trace of
observable events paired with an `Except` result.  The CLI entry point
(`argparse` plus the call to the function) is embedded as `parse_args`
and `main_run`.
-/

/-- An image handle as used by the SDK; the script only ever inspects
its internal byte buffer (`_image_bytes` in the source). -/
structure VImage where
  image_bytes : List Nat
deriving DecidableEq, Repr, Inhabited

/-- Observable events of a run, in program order: each external call,
each index access into the response collection, each file write
attempt, and each line printed to standard output. -/
inductive Event where
  | initClient (project location : String)
  | modelLookup (name : String)
  | loadInput (path : String)
  | remoteEdit (prompt : String) (seed guidance_scale number_of_images : Nat)
  | indexAccess (i : Nat)
  | saveOutput (path : String) (img : VImage)
  | printLine (s : String)
deriving DecidableEq, Repr

/-- The ways a run can terminate abnormally: argument-parsing failure,
or an uncaught exception from one of the five external steps (client
init, model lookup, input load, remote edit, output save) or from the
index access into the response collection. -/
inductive Err where
  | usage
  | initE
  | modelE
  | loadE
  | editE
  | indexE
  | saveE
deriving DecidableEq, Repr

/-- Outcomes of the external steps: whether each succeeds, and the
response collection the remote edit call returns (`none` means the
call raises). -/
structure Env where
  initOk : Bool
  modelOk : Bool
  loadOk : Bool
  editResponse : Option (List VImage)
  saveOk : Bool
deriving Repr

/-- Embedding of `edit_image_mask_free` (lines 30-64 of the source).
Each step first emits its event (the attempt) and then either fails,
aborting the run with the step's error, or continues.  The remote edit
call is issued with the hard-coded `seed=1`, `guidance_scale=21`,
`number_of_images=1`; on success the element at index 0 is saved, its
byte length printed, and the whole response collection returned. -/
def edit_image_mask_free (env : Env)
    (project_id location input_file output_file prompt : String) :
    List Event × Except Err (List VImage) :=
  let t0 := [Event.initClient project_id location]
  if !env.initOk then (t0, .error .initE) else
  let t1 := t0 ++ [Event.modelLookup "imagegeneration@002"]
  if !env.modelOk then (t1, .error .modelE) else
  let t2 := t1 ++ [Event.loadInput input_file]
  if !env.loadOk then (t2, .error .loadE) else
  let t3 := t2 ++ [Event.remoteEdit prompt 1 21 1]
  match env.editResponse with
  | none => (t3, .error .editE)
  | some images =>
    let t4 := t3 ++ [Event.indexAccess 0]
    match images with
    | [] => (t4, .error .indexE)
    | img0 :: _rest =>
      let t5 := t4 ++ [Event.saveOutput output_file img0]
      if !env.saveOk then (t5, .error .saveE) else
      let t6 := t5 ++ [Event.indexAccess 0,
        Event.printLine ("Created output image using " ++
          toString img0.image_bytes.length ++ " bytes")]
      (t6, .ok images)

/-- Raw command-line flags: `none` means the flag was not given. -/
structure CLIArgs where
  project_id : Option String
  location : Option String
  input_file : Option String
  output_file : Option String
  prompt : Option String

/-- The values handed to `edit_image_mask_free` after parsing. -/
structure ParsedArgs where
  project_id : String
  location : String
  input_file : String
  output_file : String
  prompt : String
deriving DecidableEq, Repr

/-- Embedding of the `argparse` setup (lines 69-92): `--project_id`,
`--input_file`, `--output_file` and `--prompt` are required; a missing
one makes the parser exit with a usage error.  `--location` defaults
to `"us-central1"` when omitted. -/
def parse_args (a : CLIArgs) : Except Err ParsedArgs :=
  match a.project_id, a.input_file, a.output_file, a.prompt with
  | some p, some i, some o, some pr =>
      .ok ⟨p, a.location.getD "us-central1", i, o, pr⟩
  | _, _, _, _ => .error .usage

/-- Embedding of the `__main__` block (lines 69-99): parse the flags,
then call `edit_image_mask_free` with the parsed values.  A parse
failure terminates before any event is emitted. -/
def main_run (env : Env) (a : CLIArgs) : List Event × Except Err (List VImage) :=
  match parse_args a with
  | .error e => ([], .error e)
  | .ok p =>
      edit_image_mask_free env p.project_id p.location p.input_file
        p.output_file p.prompt

/-- Recognizer for input-load events. -/
def Event.isLoad : Event → Bool
  | .loadInput _ => true
  | _ => false

/-- Recognizer for remote-edit-call events. -/
def Event.isRemote : Event → Bool
  | .remoteEdit _ _ _ _ => true
  | _ => false

/-- Recognizer for output-save events. -/
def Event.isSave : Event → Bool
  | .saveOutput _ _ => true
  | _ => false

/-- Recognizer for stdout print events. -/
def Event.isPrint : Event → Bool
  | .printLine _ => true
  | _ => false

/-- Boolean success test on a run result. -/
def isOkB : Except Err (List VImage) → Bool
  | .ok _ => true
  | .error _ => false

/-- All five external steps succeed and the response is nonempty. -/
def stepsAllOk (env : Env) : Bool :=
  env.initOk && env.modelOk && env.loadOk &&
    (match env.editResponse with
     | none => false
     | some li => !li.isEmpty) && env.saveOk

/-- An environment where every step succeeds and the service returns
one image with a 3-byte buffer. -/
def envOK : Env :=
  { initOk := true, modelOk := true, loadOk := true,
    editResponse := some [⟨[7, 8, 9]⟩], saveOk := true }

/-- C1: every remote edit call that appears in a run's trace carries
the hard-coded parameters seed = 1, guidance_scale = 21 and
number_of_images = 1, whatever the prompt, paths, project id, location
or environment. -/
theorem c1_fixed_params (env : Env) (p l i o pr : String)
    (prm : String) (s g n : Nat)
    (h : Event.remoteEdit prm s g n ∈ (edit_image_mask_free env p l i o pr).1) :
    s = 1 ∧ g = 21 ∧ n = 1 := by
  obtain ⟨ib, mb, lb, er, sb⟩ := env
  cases ib <;> cases mb <;> cases lb <;> cases sb <;>
    rcases er with _ | (_ | ⟨img, rest⟩) <;>
    simp_all [edit_image_mask_free]

/-- Witness for C1 at a concrete all-success environment. -/
theorem c1_fixed_params_witness : (1 : Nat) = 1 ∧ (21 : Nat) = 21 ∧ (1 : Nat) = 1 :=
  c1_fixed_params envOK "p" "us-central1" "in.png" "out.png" "a dog"
    "a dog" 1 21 1 (by decide)

/-- C9: every model lookup in a run's trace uses the constant model
identifier "imagegeneration@002", independent of all inputs. -/
theorem c9_fixed_model (env : Env) (p l i o pr s : String)
    (h : Event.modelLookup s ∈ (edit_image_mask_free env p l i o pr).1) :
    s = "imagegeneration@002" := by
  obtain ⟨ib, mb, lb, er, sb⟩ := env
  cases ib <;> cases mb <;> cases lb <;> cases sb <;>
    rcases er with _ | (_ | ⟨img, rest⟩) <;>
    simp_all [edit_image_mask_free]

/-- Witness for C9 at a concrete all-success environment. -/
theorem c9_fixed_model_witness : "imagegeneration@002" = "imagegeneration@002" :=
  c9_fixed_model envOK "p" "l" "i" "o" "pr" "imagegeneration@002" (by decide)

/-- A one-byte image used in counterexample environments. -/
def imgA : VImage := ⟨[1]⟩

/-- A second, distinct one-byte image. -/
def imgB : VImage := ⟨[2]⟩

/-- An environment whose remote edit call returns two images. -/
def envTwo : Env :=
  { initOk := true, modelOk := true, loadOk := true,
    editResponse := some [imgA, imgB], saveOk := true }

/-- C2 counterexample: the function returns the whole response
collection, not its first element.  In a successful run whose response
holds two images, the element at index 0 is saved, but the returned
value is the two-element collection, which differs from the response
restricted to its first image. -/
theorem c2_counterexample :
    (edit_image_mask_free envTwo "p" "l" "i" "o" "pr").2 = .ok [imgA, imgB] ∧
    Event.saveOutput "o" imgA ∈ (edit_image_mask_free envTwo "p" "l" "i" "o" "pr").1 ∧
    (Except.ok [imgA, imgB] : Except Err (List VImage)) ≠ .ok [imgA] := by
  refine ⟨rfl, by decide, by simp [imgA, imgB]⟩

/-- C2 amended: for every successful run, the image saved to the
output path is the element at index 0 of the provider's response
collection, and the value returned by the function is the entire
response collection itself (which begins with that first image). -/
theorem c2_saved_index_zero (env : Env) (p l i o pr : String)
    (imgs : List VImage)
    (h : (edit_image_mask_free env p l i o pr).2 = .ok imgs) :
    env.editResponse = some imgs ∧ imgs ≠ [] ∧
      Event.saveOutput o imgs.headI ∈ (edit_image_mask_free env p l i o pr).1 := by
  obtain ⟨ib, mb, lb, er, sb⟩ := env
  cases ib <;> cases mb <;> cases lb <;> cases sb <;>
    rcases er with _ | (_ | ⟨img, rest⟩) <;>
    simp_all [edit_image_mask_free]
  rw [← h]
  simp

/-- Witness for the amended C2 at a concrete all-success environment. -/
theorem c2_saved_index_zero_witness :
    envOK.editResponse = some [(⟨[7, 8, 9]⟩ : VImage)] ∧
    [(⟨[7, 8, 9]⟩ : VImage)] ≠ [] ∧
      Event.saveOutput "o" ([(⟨[7, 8, 9]⟩ : VImage)]).headI ∈
        (edit_image_mask_free envOK "p" "l" "i" "o" "pr").1 :=
  c2_saved_index_zero envOK "p" "l" "i" "o" "pr" [⟨[7, 8, 9]⟩] rfl

/-- C3: with the four required flags present, parsing succeeds; the
location handed on (and appearing in the client-initialization event)
is "us-central1" when `--location` is omitted, and the given value
when it is passed explicitly. -/
theorem c3_location_default (env : Env) (p i o pr : String)
    (locOpt : Option String) :
    parse_args ⟨some p, locOpt, some i, some o, some pr⟩ =
      .ok ⟨p, locOpt.getD "us-central1", i, o, pr⟩ ∧
    ∀ q l', Event.initClient q l' ∈
        (main_run env ⟨some p, locOpt, some i, some o, some pr⟩).1 →
      l' = locOpt.getD "us-central1" ∧ q = p := by
  refine ⟨rfl, ?_⟩
  intro q l' h
  obtain ⟨ib, mb, lb, er, sb⟩ := env
  cases ib <;> cases mb <;> cases lb <;> cases sb <;>
    rcases er with _ | (_ | ⟨img, rest⟩) <;>
    simp_all [main_run, parse_args, edit_image_mask_free]

/-- Witness for C3: omitted location at a concrete environment. -/
theorem c3_location_default_witness :
    parse_args ⟨some "p", none, some "i", some "o", some "pr"⟩ =
      .ok ⟨"p", "us-central1", "i", "o", "pr"⟩ ∧
    ("us-central1" = (none : Option String).getD "us-central1" ∧ "p" = "p") :=
  ⟨(c3_location_default envOK "p" "i" "o" "pr" none).1,
   (c3_location_default envOK "p" "i" "o" "pr" none).2 "p" "us-central1" (by decide)⟩

/-- C4: whenever a required flag (`--project_id`, `--input_file`,
`--output_file` or `--prompt`) is missing, the run terminates with the
parser's usage error: no event is emitted, so no network call and no
file access is ever attempted. -/
theorem c4_missing_required (env : Env) (a : CLIArgs)
    (h : a.project_id = none ∨ a.input_file = none ∨
         a.output_file = none ∨ a.prompt = none) :
    (main_run env a).1 = [] ∧ (main_run env a).2 = .error .usage := by
  obtain ⟨pid, loc, inf, outf, pro⟩ := a
  rcases pid with _ | p <;> rcases inf with _ | i <;>
    rcases outf with _ | o <;> rcases pro with _ | q <;>
    simp_all [main_run, parse_args]

/-- Witness for C4: invocation missing the prompt flag. -/
theorem c4_missing_required_witness :
    (main_run envOK ⟨some "p", none, some "i", some "o", none⟩).1 = [] ∧
    (main_run envOK ⟨some "p", none, some "i", some "o", none⟩).2 = .error .usage :=
  c4_missing_required envOK ⟨some "p", none, some "i", some "o", none⟩
    (by right; right; right; rfl)

/-- C5: when the input file cannot be loaded, the run fails with an
error and its trace contains no remote edit call; moreover when the
two steps before the load succeed, the error is precisely the
load failure. -/
theorem c5_load_failure (env : Env) (p l i o pr : String)
    (h : env.loadOk = false) :
    (∃ e, (edit_image_mask_free env p l i o pr).2 = .error e) ∧
    (∀ x s g n, Event.remoteEdit x s g n ∉ (edit_image_mask_free env p l i o pr).1) ∧
    (env.initOk = true → env.modelOk = true →
      (edit_image_mask_free env p l i o pr).2 = .error .loadE) := by
  obtain ⟨ib, mb, lb, er, sb⟩ := env
  cases ib <;> cases mb <;> cases lb <;> cases sb <;>
    rcases er with _ | (_ | ⟨img, rest⟩) <;>
    simp_all [edit_image_mask_free]

/-- An environment where only the input-file load fails. -/
def envNoInput : Env :=
  { initOk := true, modelOk := true, loadOk := false,
    editResponse := some [⟨[7, 8, 9]⟩], saveOk := true }

/-- Witness for C5 at a concrete environment with a missing input file. -/
theorem c5_load_failure_witness :
    Event.remoteEdit "pr" 1 21 1 ∉
      (edit_image_mask_free envNoInput "p" "l" "i" "o" "pr").1 ∧
    (edit_image_mask_free envNoInput "p" "l" "i" "o" "pr").2 = .error .loadE :=
  ⟨(c5_load_failure envNoInput "p" "l" "i" "o" "pr" rfl).2.1 "pr" 1 21 1,
   (c5_load_failure envNoInput "p" "l" "i" "o" "pr" rfl).2.2 rfl rfl⟩

/-- An environment where the remote edit call itself fails. -/
def envEditFail : Env :=
  { initOk := true, modelOk := true, loadOk := true,
    editResponse := none, saveOk := true }

/-- C6: errors propagate uncaught and unretried.  A run succeeds
exactly when every step succeeds (so no failure is swallowed); the
remote edit call is attempted at most once (no retry); and when the
remote edit call fails, no output save is attempted and no success
message is printed. -/
theorem c6_error_propagation (env : Env) (p l i o pr : String) :
    isOkB (edit_image_mask_free env p l i o pr).2 = stepsAllOk env ∧
    ((edit_image_mask_free env p l i o pr).1).countP (fun e => Event.isRemote e) ≤ 1 ∧
    (env.editResponse = none →
      (∀ pa im, Event.saveOutput pa im ∉ (edit_image_mask_free env p l i o pr).1) ∧
      (∀ s, Event.printLine s ∉ (edit_image_mask_free env p l i o pr).1)) := by
  obtain ⟨ib, mb, lb, er, sb⟩ := env
  cases ib <;> cases mb <;> cases lb <;> cases sb <;>
    rcases er with _ | (_ | ⟨img, rest⟩) <;>
    simp_all [edit_image_mask_free, isOkB, stepsAllOk,
      List.countP_cons, List.countP_nil, Event.isRemote]

/-- Witness for C6 at a concrete environment whose remote call fails. -/
theorem c6_error_propagation_witness :
    isOkB (edit_image_mask_free envEditFail "p" "l" "i" "o" "pr").2 = stepsAllOk envEditFail ∧
    Event.saveOutput "o" imgA ∉ (edit_image_mask_free envEditFail "p" "l" "i" "o" "pr").1 ∧
    Event.printLine "x" ∉ (edit_image_mask_free envEditFail "p" "l" "i" "o" "pr").1 :=
  ⟨(c6_error_propagation envEditFail "p" "l" "i" "o" "pr").1,
   ((c6_error_propagation envEditFail "p" "l" "i" "o" "pr").2.2 rfl).1 "o" imgA,
   ((c6_error_propagation envEditFail "p" "l" "i" "o" "pr").2.2 rfl).2 "x"⟩

/-- C7: in every run whose trace contains the remote edit call, the
input-file read occurs at a strictly earlier position than the remote
call, and any output-file write occurs at a strictly later position
than the remote call. -/
theorem c7_io_ordering (env : Env) (p l i o pr : String)
    (h : ((edit_image_mask_free env p l i o pr).1).any Event.isRemote = true) :
    ((edit_image_mask_free env p l i o pr).1).findIdx Event.isLoad <
      ((edit_image_mask_free env p l i o pr).1).findIdx Event.isRemote ∧
    (((edit_image_mask_free env p l i o pr).1).any Event.isSave = true →
      ((edit_image_mask_free env p l i o pr).1).findIdx Event.isRemote <
        ((edit_image_mask_free env p l i o pr).1).findIdx Event.isSave) := by
  obtain ⟨ib, mb, lb, er, sb⟩ := env
  cases ib <;> cases mb <;> cases lb <;> cases sb <;>
    rcases er with _ | (_ | ⟨img, rest⟩) <;>
    simp_all [edit_image_mask_free, List.findIdx_cons,
      Event.isLoad, Event.isRemote, Event.isSave]

/-- Witness for C7 at a concrete all-success environment. -/
theorem c7_io_ordering_witness :
    ((edit_image_mask_free envOK "p" "l" "i" "o" "pr").1).findIdx Event.isLoad <
      ((edit_image_mask_free envOK "p" "l" "i" "o" "pr").1).findIdx Event.isRemote ∧
    (((edit_image_mask_free envOK "p" "l" "i" "o" "pr").1).any Event.isSave = true →
      ((edit_image_mask_free envOK "p" "l" "i" "o" "pr").1).findIdx Event.isRemote <
        ((edit_image_mask_free envOK "p" "l" "i" "o" "pr").1).findIdx Event.isSave) :=
  c7_io_ordering envOK "p" "l" "i" "o" "pr" (by decide)

/-- C8: every successful run has attempted the output-file write for
the first returned image, and prints exactly one line to standard
output; that line reports the byte length of the image's internal
buffer, which is positive whenever the buffer is nonempty. -/
theorem c8_success_output (env : Env) (p l i o pr : String) (imgs : List VImage)
    (h : (edit_image_mask_free env p l i o pr).2 = .ok imgs)
    (hb : ∀ im ∈ imgs, im.image_bytes ≠ []) :
    imgs ≠ [] ∧
    Event.saveOutput o imgs.headI ∈ (edit_image_mask_free env p l i o pr).1 ∧
    ((edit_image_mask_free env p l i o pr).1).filter Event.isPrint =
      [Event.printLine ("Created output image using " ++
        toString imgs.headI.image_bytes.length ++ " bytes")] ∧
    0 < imgs.headI.image_bytes.length := by
  obtain ⟨ib, mb, lb, er, sb⟩ := env
  cases ib <;> cases mb <;> cases lb <;> cases sb <;>
    rcases er with _ | (_ | ⟨img, rest⟩) <;>
    simp_all [edit_image_mask_free, List.filter, Event.isPrint]
  subst h
  refine ⟨by simp, by simp, by simp [List.filter, Event.isPrint], ?_⟩
  exact List.length_pos.mpr (hb img (by simp))

/-- Witness for C8 at a concrete all-success environment. -/
theorem c8_success_output_witness :
    [(⟨[7, 8, 9]⟩ : VImage)] ≠ [] ∧
    Event.saveOutput "o" ([(⟨[7, 8, 9]⟩ : VImage)]).headI ∈
      (edit_image_mask_free envOK "p" "l" "i" "o" "pr").1 ∧
    ((edit_image_mask_free envOK "p" "l" "i" "o" "pr").1).filter Event.isPrint =
      [Event.printLine ("Created output image using " ++
        toString ([(⟨[7, 8, 9]⟩ : VImage)]).headI.image_bytes.length ++ " bytes")] ∧
    0 < ([(⟨[7, 8, 9]⟩ : VImage)]).headI.image_bytes.length :=
  c8_success_output envOK "p" "l" "i" "o" "pr" [⟨[7, 8, 9]⟩] rfl (by decide)

/-- An environment where the remote call returns an empty collection. -/
def envEmpty : Env :=
  { initOk := true, modelOk := true, loadOk := true,
    editResponse := some [], saveOk := true }

/-- C10: every index access into the response collection is at index
0; when the response is a nonempty collection the run never fails with
the index error; and when the first four steps succeed but the service
returns an empty collection, the run fails at the index access and the
output file is never written. -/
theorem c10_index_zero (env : Env) (p l i o pr : String) :
    (∀ j, Event.indexAccess j ∈ (edit_image_mask_free env p l i o pr).1 → j = 0) ∧
    (∀ li, env.editResponse = some li → li ≠ [] →
      (edit_image_mask_free env p l i o pr).2 ≠ .error .indexE) ∧
    (env.initOk = true → env.modelOk = true → env.loadOk = true →
      env.editResponse = some [] →
      (edit_image_mask_free env p l i o pr).2 = .error .indexE ∧
      ∀ pa im, Event.saveOutput pa im ∉ (edit_image_mask_free env p l i o pr).1) := by
  obtain ⟨ib, mb, lb, er, sb⟩ := env
  cases ib <;> cases mb <;> cases lb <;> cases sb <;>
    rcases er with _ | (_ | ⟨img, rest⟩) <;>
    simp_all [edit_image_mask_free]

/-- Witness for C10 at a concrete environment returning no images. -/
theorem c10_index_zero_witness :
    (0 : Nat) = 0 ∧
    (edit_image_mask_free envEmpty "p" "l" "i" "o" "pr").2 = .error .indexE ∧
    Event.saveOutput "o" imgA ∉ (edit_image_mask_free envEmpty "p" "l" "i" "o" "pr").1 :=
  ⟨(c10_index_zero envEmpty "p" "l" "i" "o" "pr").1 0 (by decide),
   ((c10_index_zero envEmpty "p" "l" "i" "o" "pr").2.2 rfl rfl rfl rfl).1,
   ((c10_index_zero envEmpty "p" "l" "i" "o" "pr").2.2 rfl rfl rfl rfl).2 "o" imgA⟩
